import Mathlib

/-!
Shallow embedding of `core/iwasm/common/wasm_memory.c` from
wasm-micro-runtime: a process-wide allocation facade that selects one of
three backing strategies (fixed pool, caller-supplied allocator, system
allocator) and routes every allocation request through it.

Modelling conventions:
* The file's global mutable state (`memory_mode`, `pool_allocator`,
  `malloc_func`, `realloc_func`, `free_func`, `global_pool_size`) becomes
  an explicit `MemState` record threaded through each function.
* C pointers and C function pointers are modelled as `Nat`, with `0`
  playing NULL; returning NULL is returning `0`.
* Calls to the external collaborators (the pool engine `mem_allocator_*`,
  the platform `os_*`, and the caller-supplied callbacks) are recorded as
  `Event`s in a trace, and their return values are supplied by a `Backend`
  oracle, since those collaborators are out of scope of this file.
  `LOG_WARNING`/`LOG_ERROR` diagnostics are also recorded as events.
* Build configuration embedded: `WASM_MEM_ALLOC_WITH_USER_DATA == 0` and
  `BH_ENABLE_GC_VERIFY == 0` (the defaults; the non-default branches
  differ only by an extra opaque `user_data` argument and by a fatal exit
  on leak detection, neither of which the claims below depend on).
-/

namespace WasmMemory

/-- `typedef enum Memory_Mode` of wasm_memory.c. -/
inductive Memory_Mode where
  | unknown
  | pool
  | allocator
  | system_allocator
  deriving DecidableEq, Repr

/-- The file-scope static variables of wasm_memory.c, as one record.
Pointers (`pool_allocator`) and function pointers (`malloc_func`,
`realloc_func`, `free_func`) are `Nat`, `0` standing for NULL. -/
structure MemState where
  memory_mode : Memory_Mode
  pool_allocator : Nat
  malloc_func : Nat
  realloc_func : Nat
  free_func : Nat
  global_pool_size : Nat
  deriving DecidableEq, Repr

/-- The initial values of the statics: everything NULL/zero, mode
`MEMORY_MODE_UNKNOWN`. -/
def initialState : MemState :=
  { memory_mode := .unknown
    pool_allocator := 0
    malloc_func := 0
    realloc_func := 0
    free_func := 0
    global_pool_size := 0 }

/-- Observable events: diagnostics and calls into the external
collaborators (pool engine, caller callbacks, system allocator), with the
arguments the C code passes. -/
inductive Event where
  | logWarning
  | logError
  | memAllocatorCreate (mem bytes : Nat)
  | memAllocatorDestroy (handle : Nat)
  | memAllocatorMalloc (handle size : Nat)
  | memAllocatorRealloc (handle ptr size : Nat)
  | memAllocatorFree (handle ptr : Nat)
  | callMallocFunc (fn size : Nat)
  | callReallocFunc (fn ptr size : Nat)
  | callFreeFunc (fn ptr : Nat)
  | osMalloc (size : Nat)
  | osRealloc (ptr size : Nat)
  | osFree (ptr : Nat)
  deriving DecidableEq, Repr

/-- Is the event a mere diagnostic (LOG_WARNING / LOG_ERROR)? -/
def Event.isLog : Event → Bool
  | .logWarning => true
  | .logError => true
  | _ => false

/-- The backend calls in a trace: every event that is not a diagnostic. -/
def backendCalls (es : List Event) : List Event :=
  es.filter fun e => !e.isLog

/-- Oracle for the return values of the external collaborators: the pool
engine's create/malloc/realloc, the caller-supplied malloc/realloc
callbacks (keyed by the function-pointer value stored in the state), and
the platform allocator. A returned `0` is NULL (failure/absence). -/
structure Backend where
  mem_allocator_create : Nat → Nat → Nat
  mem_allocator_malloc : Nat → Nat → Nat
  mem_allocator_realloc : Nat → Nat → Nat → Nat
  call_malloc_func : Nat → Nat → Nat
  call_realloc_func : Nat → Nat → Nat → Nat
  os_malloc : Nat → Nat
  os_realloc : Nat → Nat → Nat

/-- `UINT32_MAX`. -/
def UINT32_MAX : Nat := 4294967295

/-- `mem_alloc_type_t` tag `Alloc_With_Pool` (the enum from the public
header; the tag is a plain integer, so an unrecognized tag is any other
`Nat`). -/
def Alloc_With_Pool : Nat := 0

/-- `mem_alloc_type_t` tag `Alloc_With_Allocator`. -/
def Alloc_With_Allocator : Nat := 1

/-- `mem_alloc_type_t` tag `Alloc_With_System_Allocator`. -/
def Alloc_With_System_Allocator : Nat := 2

/-- `MemAllocOption`: the union of the pool configuration and the
allocator configuration, flattened (only the fields matching the tag are
ever read). -/
structure MemAllocOption where
  pool_heap_buf : Nat
  pool_heap_size : Nat
  allocator_malloc_func : Nat
  allocator_realloc_func : Nat
  allocator_free_func : Nat

/-- `wasm_memory_init_with_pool`: create the pool engine over the region;
on success commit mode/handle/size, on failure log and leave the state
unchanged. Returns (bool result, new state, events). -/
def wasm_memory_init_with_pool (B : Backend) (s : MemState)
    (mem bytes : Nat) : Bool × MemState × List Event :=
  let _allocator := B.mem_allocator_create mem bytes
  if _allocator ≠ 0 then
    (true,
     { s with
        memory_mode := .pool
        pool_allocator := _allocator
        global_pool_size := bytes },
     [Event.memAllocatorCreate mem bytes])
  else
    (false, s, [Event.memAllocatorCreate mem bytes, Event.logError])

/-- `wasm_memory_init_with_allocator` (the `WASM_MEM_ALLOC_WITH_USER_DATA
== 0` variant): validate that malloc and free are non-NULL and distinct;
on success commit mode and the three callbacks, on failure log and leave
the state unchanged. -/
def wasm_memory_init_with_allocator (s : MemState)
    (_malloc_func _realloc_func _free_func : Nat) :
    Bool × MemState × List Event :=
  if _malloc_func ≠ 0 ∧ _free_func ≠ 0 ∧ _malloc_func ≠ _free_func then
    (true,
     { s with
        memory_mode := .allocator
        malloc_func := _malloc_func
        realloc_func := _realloc_func
        free_func := _free_func },
     [])
  else
    (false, s, [Event.logError])

/-- `wasm_runtime_memory_init`: dispatch on the requested tag; an
unrecognized tag fails with no state change. -/
def wasm_runtime_memory_init (B : Backend) (s : MemState)
    (mem_alloc_type : Nat) (alloc_option : MemAllocOption) :
    Bool × MemState × List Event :=
  if mem_alloc_type = Alloc_With_Pool then
    wasm_memory_init_with_pool B s alloc_option.pool_heap_buf
      alloc_option.pool_heap_size
  else if mem_alloc_type = Alloc_With_Allocator then
    wasm_memory_init_with_allocator s alloc_option.allocator_malloc_func
      alloc_option.allocator_realloc_func alloc_option.allocator_free_func
  else if mem_alloc_type = Alloc_With_System_Allocator then
    (true, { s with memory_mode := .system_allocator }, [])
  else
    (false, s, [])

/-- `wasm_runtime_memory_destroy` (`BH_ENABLE_GC_VERIFY == 0`): in pool
mode call the engine's destroy (result discarded); in every mode set the
mode back to `MEMORY_MODE_UNKNOWN`. The other statics are not touched. -/
def wasm_runtime_memory_destroy (s : MemState) : MemState × List Event :=
  if s.memory_mode = .pool then
    ({ s with memory_mode := .unknown },
     [Event.memAllocatorDestroy s.pool_allocator])
  else
    ({ s with memory_mode := .unknown }, [])

/-- `wasm_runtime_memory_pool_size`: the recorded pool size in pool mode,
`UINT32_MAX` otherwise. -/
def wasm_runtime_memory_pool_size (s : MemState) : Nat :=
  if s.memory_mode = .pool then s.global_pool_size else UINT32_MAX

/-- `wasm_runtime_malloc_internal`: route an allocation by mode. Returns
(pointer result, state after, events), `0` meaning NULL. -/
def wasm_runtime_malloc_internal (B : Backend) (s : MemState)
    (size : Nat) : Nat × MemState × List Event :=
  if s.memory_mode = .unknown then
    (0, s, [Event.logWarning])
  else if s.memory_mode = .pool then
    (B.mem_allocator_malloc s.pool_allocator size, s,
     [Event.memAllocatorMalloc s.pool_allocator size])
  else if s.memory_mode = .allocator then
    (B.call_malloc_func s.malloc_func size, s,
     [Event.callMallocFunc s.malloc_func size])
  else
    (B.os_malloc size, s, [Event.osMalloc size])

/-- `wasm_runtime_realloc_internal`: route a reallocation by mode; in
allocator mode with no realloc callback supplied, return NULL without
calling anything. -/
def wasm_runtime_realloc_internal (B : Backend) (s : MemState)
    (ptr size : Nat) : Nat × MemState × List Event :=
  if s.memory_mode = .unknown then
    (0, s, [Event.logWarning])
  else if s.memory_mode = .pool then
    (B.mem_allocator_realloc s.pool_allocator ptr size, s,
     [Event.memAllocatorRealloc s.pool_allocator ptr size])
  else if s.memory_mode = .allocator then
    if s.realloc_func ≠ 0 then
      (B.call_realloc_func s.realloc_func ptr size, s,
       [Event.callReallocFunc s.realloc_func ptr size])
    else
      (0, s, [])
  else
    (B.os_realloc ptr size, s, [Event.osRealloc ptr size])

/-- `wasm_runtime_free_internal`: a NULL pointer is a warned no-op before
the mode is even inspected; otherwise route the release by mode. -/
def wasm_runtime_free_internal (s : MemState) (ptr : Nat) :
    MemState × List Event :=
  if ptr = 0 then
    (s, [Event.logWarning])
  else if s.memory_mode = .unknown then
    (s, [Event.logWarning])
  else if s.memory_mode = .pool then
    (s, [Event.memAllocatorFree s.pool_allocator ptr])
  else if s.memory_mode = .allocator then
    (s, [Event.callFreeFunc s.free_func ptr])
  else
    (s, [Event.osFree ptr])

/-- `wasm_runtime_malloc`: promote a zero size to 1 (with a warning)
before dispatching to the internal router. -/
def wasm_runtime_malloc (B : Backend) (s : MemState) (size : Nat) :
    Nat × MemState × List Event :=
  if size = 0 then
    let r := wasm_runtime_malloc_internal B s 1
    (r.1, r.2.1, Event.logWarning :: r.2.2)
  else
    wasm_runtime_malloc_internal B s size

/-- `wasm_runtime_realloc`: a plain pass-through to the internal router
(no zero-size promotion). -/
def wasm_runtime_realloc (B : Backend) (s : MemState) (ptr size : Nat) :
    Nat × MemState × List Event :=
  wasm_runtime_realloc_internal B s ptr size

/-- `wasm_runtime_free`: a plain pass-through to the internal router. -/
def wasm_runtime_free (s : MemState) (ptr : Nat) :
    MemState × List Event :=
  wasm_runtime_free_internal s ptr

/-- One routed request, for reasoning about sequences of router calls. -/
inductive Request where
  | malloc (size : Nat)
  | realloc (ptr size : Nat)
  | free (ptr : Nat)
  deriving DecidableEq, Repr

/-- Run one routed request, keeping only the state it leaves behind. -/
def runRequest (B : Backend) (s : MemState) : Request → MemState
  | .malloc size => (wasm_runtime_malloc B s size).2.1
  | .realloc ptr size => (wasm_runtime_realloc B s ptr size).2.1
  | .free ptr => (wasm_runtime_free s ptr).1

/-- Run a sequence of routed requests from a starting state. -/
def runRequests (B : Backend) (s : MemState) : List Request → MemState
  | [] => s
  | r :: rs => runRequests B (runRequest B s r) rs

/-- A concrete backend oracle for evaluating the model on closed inputs:
pool creation succeeds with handle 1, each collaborator returns a fixed
distinct non-NULL pointer. -/
def testBackend : Backend :=
  { mem_allocator_create := fun _ _ => 1
    mem_allocator_malloc := fun _ _ => 100
    mem_allocator_realloc := fun _ _ _ => 101
    call_malloc_func := fun _ _ => 200
    call_realloc_func := fun _ _ _ => 201
    os_malloc := fun _ => 300
    os_realloc := fun _ _ => 301 }

/-- A concrete state in pool mode (handle 1, recorded size 64). -/
def poolState : MemState :=
  { memory_mode := .pool
    pool_allocator := 1
    malloc_func := 0
    realloc_func := 0
    free_func := 0
    global_pool_size := 64 }

/-- A concrete state in custom-allocator mode with all three callbacks. -/
def customState : MemState :=
  { memory_mode := .allocator
    pool_allocator := 0
    malloc_func := 3
    realloc_func := 5
    free_func := 4
    global_pool_size := 0 }

/-- A concrete custom-allocator-mode state whose realloc callback is NULL
(initialized with only an allocate/release pair). -/
def customStateNoRealloc : MemState :=
  { memory_mode := .allocator
    pool_allocator := 0
    malloc_func := 3
    realloc_func := 0
    free_func := 4
    global_pool_size := 0 }

/-- A concrete state in system-allocator mode. -/
def systemState : MemState :=
  { memory_mode := .system_allocator
    pool_allocator := 0
    malloc_func := 0
    realloc_func := 0
    free_func := 0
    global_pool_size := 0 }

/-- The internal malloc router never changes the state. -/
theorem malloc_internal_state_eq (B : Backend) (s : MemState)
    (size : Nat) : (wasm_runtime_malloc_internal B s size).2.1 = s := by
  unfold wasm_runtime_malloc_internal
  split_ifs <;> rfl

/-- The internal realloc router never changes the state. -/
theorem realloc_internal_state_eq (B : Backend) (s : MemState)
    (ptr size : Nat) :
    (wasm_runtime_realloc_internal B s ptr size).2.1 = s := by
  unfold wasm_runtime_realloc_internal
  split_ifs <;> rfl

/-- The internal free router never changes the state. -/
theorem free_internal_state_eq (s : MemState) (ptr : Nat) :
    (wasm_runtime_free_internal s ptr).1 = s := by
  unfold wasm_runtime_free_internal
  split_ifs <;> rfl

/-- C1: in every mode, `Allocate(0)` behaves identically to
`Allocate(1)`: the size-0 request is promoted to size 1 before dispatch,
so the same backend operation is invoked with the same size, the same
result is returned, and the state is the same (the traces differ only by
the extra diagnostic). -/
theorem malloc_zero_eq_malloc_one (B : Backend) (s : MemState) :
    (wasm_runtime_malloc B s 0).1 = (wasm_runtime_malloc B s 1).1 ∧
    (wasm_runtime_malloc B s 0).2.1 = (wasm_runtime_malloc B s 1).2.1 ∧
    backendCalls (wasm_runtime_malloc B s 0).2.2 =
      backendCalls (wasm_runtime_malloc B s 1).2.2 := by
  refine ⟨rfl, rfl, ?_⟩
  simp [wasm_runtime_malloc, backendCalls, Event.isLog]

/-- C2: in the uninitialized mode, `Allocate` returns NULL for every size
with no backend call, and `Reallocate` does the same. -/
theorem uninitialized_alloc_absent (B : Backend) (s : MemState)
    (h : s.memory_mode = Memory_Mode.unknown) (size ptr rsize : Nat) :
    (wasm_runtime_malloc B s size).1 = 0 ∧
    backendCalls (wasm_runtime_malloc B s size).2.2 = [] ∧
    (wasm_runtime_realloc B s ptr rsize).1 = 0 ∧
    backendCalls (wasm_runtime_realloc B s ptr rsize).2.2 = [] := by
  unfold wasm_runtime_malloc wasm_runtime_malloc_internal
    wasm_runtime_realloc wasm_runtime_realloc_internal
  split_ifs <;> simp_all [backendCalls, Event.isLog]

/-- Witness for C2 at a concrete input: the initial state is
uninitialized, and a 5-byte allocation and a reallocation there return
NULL with no backend call. -/
theorem uninitialized_alloc_absent_witness :
    initialState.memory_mode = Memory_Mode.unknown ∧
    ((wasm_runtime_malloc testBackend initialState 5).1 = 0 ∧
     backendCalls (wasm_runtime_malloc testBackend initialState 5).2.2
       = [] ∧
     (wasm_runtime_realloc testBackend initialState 7 16).1 = 0 ∧
     backendCalls
       (wasm_runtime_realloc testBackend initialState 7 16).2.2 = []) :=
  ⟨rfl, uninitialized_alloc_absent testBackend initialState rfl 5 7 16⟩

/-- C3: in every mode (for every state), `Release(NULL)` returns with the
state unchanged and its whole trace is a single diagnostic — in
particular no backend release operation is invoked. -/
theorem free_null_noop (s : MemState) :
    wasm_runtime_free s 0 = (s, [Event.logWarning]) := by
  simp [wasm_runtime_free, wasm_runtime_free_internal]

/-- C4: if `Initialize(Pool, region, size)` succeeds then `PoolCapacity`
on the resulting state returns exactly `size`; and on every state whose
mode is not pool (uninitialized, custom allocator, system allocator) it
returns `UINT32_MAX`. -/
theorem pool_size_spec (B : Backend) (s : MemState)
    (opt : MemAllocOption)
    (h : (wasm_runtime_memory_init B s Alloc_With_Pool opt).1 = true) :
    wasm_runtime_memory_pool_size
        (wasm_runtime_memory_init B s Alloc_With_Pool opt).2.1
      = opt.pool_heap_size ∧
    ∀ t : MemState, t.memory_mode ≠ Memory_Mode.pool →
      wasm_runtime_memory_pool_size t = UINT32_MAX := by
  constructor
  · by_cases hc :
      B.mem_allocator_create opt.pool_heap_buf opt.pool_heap_size = 0
    · exfalso
      simp [wasm_runtime_memory_init, wasm_memory_init_with_pool, hc]
        at h
    · simp [wasm_runtime_memory_init, wasm_memory_init_with_pool, hc,
        wasm_runtime_memory_pool_size]
  · intro t ht
    simp [wasm_runtime_memory_pool_size, ht]

/-- Witness for C4 at a concrete input: initializing pool mode over a
64-byte region with a backend whose pool creation succeeds, the recorded
capacity is 64; and the uninitialized state reports `UINT32_MAX`. -/
theorem pool_size_spec_witness :
    wasm_runtime_memory_pool_size
        (wasm_runtime_memory_init testBackend initialState
          Alloc_With_Pool ⟨10, 64, 0, 0, 0⟩).2.1 = 64 ∧
    wasm_runtime_memory_pool_size initialState = UINT32_MAX := by
  have h := pool_size_spec testBackend initialState ⟨10, 64, 0, 0, 0⟩
    (by decide)
  exact ⟨h.1, h.2 initialState (by decide)⟩

/-- C5: custom-allocator initialization succeeds exactly when the
allocate and release callbacks are both non-NULL and distinct (the
realloc callback being NULL is permitted); when it fails, the state is
left exactly as it was. -/
theorem init_with_allocator_spec (s : MemState) (m r f : Nat) :
    ((wasm_memory_init_with_allocator s m r f).1 = true ↔
      m ≠ 0 ∧ f ≠ 0 ∧ m ≠ f) ∧
    ((m = 0 ∨ f = 0 ∨ m = f) →
      (wasm_memory_init_with_allocator s m r f).2.1 = s) := by
  unfold wasm_memory_init_with_allocator
  by_cases h : m ≠ 0 ∧ f ≠ 0 ∧ m ≠ f <;> simp [h]

/-- Witness for C5 at a concrete input: initialization with
allocate = release = 3 fails and leaves the initial state unchanged,
while allocate 3 / realloc NULL / release 4 succeeds. -/
theorem init_with_allocator_spec_witness :
    (wasm_memory_init_with_allocator initialState 3 0 3).2.1
      = initialState ∧
    (wasm_memory_init_with_allocator initialState 3 0 4).1 = true :=
  ⟨(init_with_allocator_spec initialState 3 0 3).2
      (Or.inr (Or.inr rfl)),
   (init_with_allocator_spec initialState 3 0 4).1.mpr
      (by decide)⟩

/-- C6: initialization is commit-or-reject — whenever
`wasm_runtime_memory_init` returns failure (pool engine construction
failed, allocator validation failed, or the tag is unrecognized), the
state is exactly what it was before the attempt. -/
theorem init_commit_or_reject (B : Backend) (s : MemState) (ty : Nat)
    (opt : MemAllocOption)
    (h : (wasm_runtime_memory_init B s ty opt).1 = false) :
    (wasm_runtime_memory_init B s ty opt).2.1 = s := by
  by_cases h0 : ty = Alloc_With_Pool
  · subst h0
    by_cases hc :
      B.mem_allocator_create opt.pool_heap_buf opt.pool_heap_size = 0
    · simp [wasm_runtime_memory_init, wasm_memory_init_with_pool, hc]
    · simp [wasm_runtime_memory_init, wasm_memory_init_with_pool, hc]
        at h
  · by_cases h1 : ty = Alloc_With_Allocator
    · subst h1
      by_cases hv : opt.allocator_malloc_func ≠ 0 ∧
          opt.allocator_free_func ≠ 0 ∧
          opt.allocator_malloc_func ≠ opt.allocator_free_func
      · simp [wasm_runtime_memory_init, wasm_memory_init_with_allocator,
          hv, Alloc_With_Allocator, Alloc_With_Pool] at h
      · simp [wasm_runtime_memory_init, wasm_memory_init_with_allocator,
          hv, Alloc_With_Allocator, Alloc_With_Pool]
    · by_cases h2 : ty = Alloc_With_System_Allocator
      · subst h2
        simp [wasm_runtime_memory_init, Alloc_With_System_Allocator,
          Alloc_With_Allocator, Alloc_With_Pool] at h
      · simp [wasm_runtime_memory_init, h0, h1, h2]

/-- Witness for C6 at a concrete input: the unrecognized tag 99 fails and
leaves the initial state unchanged. -/
theorem init_commit_or_reject_witness :
    (wasm_runtime_memory_init testBackend initialState 99
        ⟨10, 64, 0, 0, 0⟩).2.1 = initialState :=
  init_commit_or_reject testBackend initialState 99 ⟨10, 64, 0, 0, 0⟩
    (by decide)

/-- C7 counterexample: `Destroy()` does not clear the handle/callback
state — destroying a pool-mode state whose handle is 7 leaves the
`pool_allocator` field equal to 7, not NULL (the C code only resets
`memory_mode`). -/
theorem destroy_does_not_clear_handle :
    (wasm_runtime_memory_destroy
        { memory_mode := .pool
          pool_allocator := 7
          malloc_func := 0
          realloc_func := 0
          free_func := 0
          global_pool_size := 64 }).1.pool_allocator = 7 ∧ (7 : Nat) ≠ 0
    := by decide

/-- C7 amended: for every starting state, `Destroy()` resets the mode to
uninitialized and leaves every other field untouched; consequently
`PoolCapacity()` after `Destroy()` returns `UINT32_MAX`, in particular in
the `Initialize(Pool, ...)`; `Destroy()`; `PoolCapacity()` scenario. -/
theorem destroy_resets_mode (s : MemState) :
    (wasm_runtime_memory_destroy s).1
      = { s with memory_mode := Memory_Mode.unknown } ∧
    wasm_runtime_memory_pool_size (wasm_runtime_memory_destroy s).1
      = UINT32_MAX ∧
    ∀ (B : Backend) (opt : MemAllocOption),
      wasm_runtime_memory_pool_size
        (wasm_runtime_memory_destroy
          (wasm_runtime_memory_init B s Alloc_With_Pool opt).2.1).1
        = UINT32_MAX := by
  refine ⟨?_, ?_, ?_⟩
  · unfold wasm_runtime_memory_destroy
    split_ifs <;> rfl
  · unfold wasm_runtime_memory_destroy wasm_runtime_memory_pool_size
    split_ifs <;> simp_all
  · intro B opt
    unfold wasm_runtime_memory_destroy wasm_runtime_memory_pool_size
    split_ifs <;> simp_all

/-- C8: in custom-allocator mode with a NULL realloc callback,
`Reallocate` returns NULL for every pointer and size, and its trace is
empty — neither the allocate nor the release callback is invoked (no
emulation). -/
theorem realloc_no_realloc_func (B : Backend) (s : MemState)
    (h1 : s.memory_mode = Memory_Mode.allocator)
    (h2 : s.realloc_func = 0) (ptr size : Nat) :
    (wasm_runtime_realloc B s ptr size).1 = 0 ∧
    (wasm_runtime_realloc B s ptr size).2.2 = [] := by
  simp [wasm_runtime_realloc, wasm_runtime_realloc_internal, h1, h2]

/-- Witness for C8 at a concrete input: reallocating 128 bytes in a
custom-allocator state with no realloc callback yields NULL and an empty
trace. -/
theorem realloc_no_realloc_func_witness :
    (wasm_runtime_realloc testBackend customStateNoRealloc 7 128).1 = 0 ∧
    (wasm_runtime_realloc testBackend customStateNoRealloc 7 128).2.2
      = [] :=
  realloc_no_realloc_func testBackend customStateNoRealloc rfl rfl 7 128

/-- C9: routing is read-only with respect to the allocation context —
running any sequence of routed requests (allocate, reallocate, release)
in any mode leaves the state exactly as it started. -/
theorem routing_preserves_state (B : Backend) (s : MemState)
    (rs : List Request) : runRequests B s rs = s := by
  induction rs generalizing s with
  | nil => rfl
  | cons r rs ih =>
    have hr : runRequest B s r = s := by
      cases r with
      | malloc size =>
        show (wasm_runtime_malloc B s size).2.1 = s
        unfold wasm_runtime_malloc
        split_ifs <;> exact malloc_internal_state_eq ..
      | realloc ptr size =>
        exact realloc_internal_state_eq ..
      | free ptr =>
        exact free_internal_state_eq ..
    rw [runRequests, hr, ih]

/-- C10: the zero-size promotion applies only to `Allocate` — in each
initialized mode, `Reallocate(ptr, 0)` invokes the active backend's
reallocate operation with size 0 unchanged. -/
theorem realloc_zero_not_promoted (B : Backend) (s : MemState)
    (ptr : Nat) :
    (s.memory_mode = Memory_Mode.pool →
      (wasm_runtime_realloc B s ptr 0).2.2
        = [Event.memAllocatorRealloc s.pool_allocator ptr 0]) ∧
    (s.memory_mode = Memory_Mode.allocator → s.realloc_func ≠ 0 →
      (wasm_runtime_realloc B s ptr 0).2.2
        = [Event.callReallocFunc s.realloc_func ptr 0]) ∧
    (s.memory_mode = Memory_Mode.system_allocator →
      (wasm_runtime_realloc B s ptr 0).2.2 = [Event.osRealloc ptr 0]) :=
    by
  refine ⟨fun h => ?_, fun h hr => ?_, fun h => ?_⟩ <;>
    simp_all [wasm_runtime_realloc, wasm_runtime_realloc_internal]

/-- Witness for C10 at concrete inputs: in each of the three initialized
modes, reallocating pointer 5 to size 0 produces a backend reallocate
call carrying size 0. -/
theorem realloc_zero_not_promoted_witness :
    (wasm_runtime_realloc testBackend poolState 5 0).2.2
      = [Event.memAllocatorRealloc 1 5 0] ∧
    (wasm_runtime_realloc testBackend customState 5 0).2.2
      = [Event.callReallocFunc 5 5 0] ∧
    (wasm_runtime_realloc testBackend systemState 5 0).2.2
      = [Event.osRealloc 5 0] :=
  ⟨(realloc_zero_not_promoted testBackend poolState 5).1 rfl,
   (realloc_zero_not_promoted testBackend customState 5).2.1 rfl
      (by decide),
   (realloc_zero_not_promoted testBackend systemState 5).2.2 rfl⟩

end WasmMemory
